import Mathlib

/-!
# Verification of the glider scraping engine against its specification

Shallow embedding of the parts of the repository the claims are about:

* `engine/bloom.py` — the pure-Python `BloomFilter` (bit array packed in a
  bytearray, `hash_count` hash positions per item);
* `engine/scraper.py` — the dedup/merge step `_merge_data`, the batch flush
  machinery `_flush_batch` / `_flush_remaining_batches`, the exit paths of
  `run`, the direct-HTTP branch of `_fetch_page`, the tenacity retry
  decorators, the browser-interaction loop, and the two crawl drivers
  (pagination loop iteration; list-mode worker) as event traces;
* `engine/checkpoint.py` — the `CheckpointManager` state, together with the
  call sites in `scraper.py` that invoke its coroutine methods without
  awaiting them.

Machine integers do not arise (Python integers are unbounded); byte values in
the bytearray stay below 256 because they are built by OR-ing bits, but no
theorem needs that bound.  Exceptions are modelled with `Except` /
option-style results.
-/

namespace Glider

/-! ### Byte-array bit primitives (`bloom.py` lines 75–85)

Python stores the bit array as `bytearray(math.ceil(bit_size / 8))`; we model
the bytearray as a `List Nat` of byte values. -/

/-- `_set_bit(index)`: `self.bit_array[byte_index] |= (1 << bit_offset)` with
`byte_index = index // 8`, `bit_offset = index % 8`. -/
def setBit (arr : List Nat) (index : Nat) : List Nat :=
  arr.set (index / 8) ((arr.getD (index / 8) 0) ||| (1 <<< (index % 8)))

/-- `_get_bit(index)`: `bool(self.bit_array[byte_index] & (1 << bit_offset))`. -/
def getBit (arr : List Nat) (index : Nat) : Bool :=
  (arr.getD (index / 8) 0) &&& (1 <<< (index % 8)) != 0

theorem getD_set_self : ∀ (l : List Nat) (i v : Nat), i < l.length →
    (l.set i v).getD i 0 = v
  | [], i, v, h => absurd h (by simp)
  | _ :: _, 0, _, _ => rfl
  | _ :: l, i + 1, v, h => getD_set_self l i v (by simpa using h)

theorem getD_set_ne : ∀ (l : List Nat) (i j v : Nat), i ≠ j →
    (l.set i v).getD j 0 = l.getD j 0
  | [], _, _, _, _ => rfl
  | _ :: _, 0, 0, _, h => absurd rfl h
  | _ :: _, 0, _ + 1, _, _ => rfl
  | _ :: _, _ + 1, 0, _, _ => rfl
  | _ :: l, i + 1, j + 1, v, h =>
    getD_set_ne l i j v (fun hij => h (by rw [hij]))

theorem getBit_eq_testBit (arr : List Nat) (i : Nat) :
    getBit arr i = (arr.getD (i / 8) 0).testBit (i % 8) := by
  unfold getBit
  rw [Nat.one_shiftLeft, Nat.and_two_pow]
  cases h : (arr.getD (i / 8) 0).testBit (i % 8) <;>
    simp [h, Nat.pow_eq_zero]

theorem getBit_setBit_self (arr : List Nat) (i : Nat) (h : i / 8 < arr.length) :
    getBit (setBit arr i) i = true := by
  rw [getBit_eq_testBit]
  unfold setBit
  rw [getD_set_self _ _ _ h, Nat.testBit_lor, Nat.one_shiftLeft,
    Nat.testBit_two_pow_self, Bool.or_true]

theorem getBit_setBit_mono (arr : List Nat) (i j : Nat)
    (h : getBit arr j = true) : getBit (setBit arr i) j = true := by
  rw [getBit_eq_testBit] at h ⊢
  unfold setBit
  by_cases hij : i / 8 = j / 8
  · by_cases hlen : j / 8 < arr.length
    · rw [hij, getD_set_self _ _ _ hlen, ← hij, Nat.testBit_lor, hij, h,
        Bool.true_or]
    · rw [List.getD_eq_default _ _ (Nat.le_of_not_lt hlen), Nat.zero_testBit] at h
      exact absurd h (by simp)
  · rw [getD_set_ne _ _ _ _ hij, h]

theorem length_setBit (arr : List Nat) (i : Nat) :
    (setBit arr i).length = arr.length := List.length_set arr _ _

theorem div8_lt {i m : Nat} (h : i < m) : i / 8 < (m + 7) / 8 := by
  have h1 : i ≤ m - 1 := Nat.le_sub_one_of_lt h
  have h2 : m - 1 + 8 = m + 7 := by omega
  calc i / 8 ≤ (m - 1) / 8 := Nat.div_le_div_right h1
    _ < (m - 1) / 8 + 1 := Nat.lt_succ_self _
    _ = (m - 1 + 8) / 8 := (Nat.add_div_right _ (by norm_num)).symm
    _ = (m + 7) / 8 := by rw [h2]

/-! ### `BloomFilter` (`engine/bloom.py`) -/

/-- `BloomFilter.__init__` (bloom.py lines 21–40).  `bit_size` and
`hash_count` are computed from `capacity` and `error_rate` by the
floating-point formulas `_optimal_bit_size` / `_optimal_hash_count`; we carry
the resulting geometry as data (the claims quantify over it).
`bit_array = bytearray(math.ceil(bit_size / 8))`, `item_count = 0`. -/
structure BloomFilter where
  capacity : Nat
  bit_size : Nat
  hash_count : Nat
  bit_array : List Nat
  item_count : Nat
deriving Repr, DecidableEq

/-- The state `__init__` leaves the filter in: an all-zero byte array of
length `ceil(bit_size / 8)`. -/
def BloomFilter.fresh (capacity bit_size hash_count : Nat) : BloomFilter :=
  { capacity := capacity
    bit_size := bit_size
    hash_count := hash_count
    bit_array := List.replicate ((bit_size + 7) / 8) 0
    item_count := 0 }

/-- Facts `__init__` establishes: a positive bit-array size (Python would
raise `ZeroDivisionError` in `_hash` otherwise) and the
`bytearray(math.ceil(bit_size / 8))` length (`⌈m/8⌉ = (m+7)/8`). -/
def BloomFilter.wf (bf : BloomFilter) : Prop :=
  0 < bf.bit_size ∧ bf.bit_array.length = (bf.bit_size + 7) / 8

instance (bf : BloomFilter) : Decidable bf.wf := by
  unfold BloomFilter.wf; infer_instance

/-- `_hash(item, seed)` (bloom.py lines 60–73): SHA-256 of `"{item}:{seed}"`,
first 8 bytes as a big-endian integer, reduced `% bit_size`.  The
digest-to-integer map is abstracted as the parameter `H`; every theorem below
holds for an arbitrary `H`, hence in particular for the SHA-256 one. -/
def BloomFilter.hashIdx (H : String → Nat → Nat) (bf : BloomFilter)
    (item : String) (seed : Nat) : Nat :=
  H item seed % bf.bit_size

/-- `add(item)` (bloom.py lines 87–101): set all `hash_count` hash positions,
then `item_count += 1`.  (`str(item)` is the identity here: the items fed to
the filter are already strings.) -/
def BloomFilter.add (H : String → Nat → Nat) (bf : BloomFilter)
    (item : String) : BloomFilter :=
  { bf with
    bit_array := (List.range bf.hash_count).foldl
      (fun a i => setBit a (bf.hashIdx H item i)) bf.bit_array
    item_count := bf.item_count + 1 }

/-- `__contains__(item)` (bloom.py lines 103–122): `False` as soon as one of
the `hash_count` positions is unset, else `True`. -/
def BloomFilter.contains (H : String → Nat → Nat) (bf : BloomFilter)
    (item : String) : Bool :=
  (List.range bf.hash_count).all fun i => getBit bf.bit_array (bf.hashIdx H item i)

theorem foldl_setBit_length (idxs : List Nat) :
    ∀ arr : List Nat, (idxs.foldl setBit arr).length = arr.length := by
  induction idxs with
  | nil => intro arr; rfl
  | cons x xs ih => intro arr; rw [List.foldl_cons, ih, length_setBit]

theorem foldl_setBit_mono (idxs : List Nat) :
    ∀ arr : List Nat, ∀ j, getBit arr j = true →
      getBit (idxs.foldl setBit arr) j = true := by
  induction idxs with
  | nil => intro arr j h; exact h
  | cons x xs ih =>
    intro arr j h
    exact ih (setBit arr x) j (getBit_setBit_mono arr x j h)

theorem foldl_setBit_sets (idxs : List Nat) :
    ∀ arr : List Nat, (∀ x ∈ idxs, x / 8 < arr.length) →
      ∀ j ∈ idxs, getBit (idxs.foldl setBit arr) j = true := by
  induction idxs with
  | nil => intro arr _ j hj; exact absurd hj (by simp)
  | cons x xs ih =>
    intro arr hin j hj
    rw [List.foldl_cons]
    rcases List.mem_cons.mp hj with hj | hj
    · subst hj
      exact foldl_setBit_mono xs (setBit arr j) j
        (getBit_setBit_self arr j (hin j (List.mem_cons_self _ _)))
    · exact ih (setBit arr x)
        (fun y hy => by rw [length_setBit]; exact hin y (List.mem_cons_of_mem _ hy))
        j hj

theorem add_bit_size (H : String → Nat → Nat) (bf : BloomFilter) (x : String) :
    (bf.add H x).bit_size = bf.bit_size := rfl

theorem add_wf (H : String → Nat → Nat) (bf : BloomFilter) (x : String)
    (hwf : bf.wf) : (bf.add H x).wf := by
  refine ⟨hwf.1, ?_⟩
  show ((List.range bf.hash_count).foldl
    (fun a i => setBit a (bf.hashIdx H x i)) bf.bit_array).length = _
  rw [← List.foldl_map, foldl_setBit_length]
  exact hwf.2

theorem contains_add_self (H : String → Nat → Nat) (bf : BloomFilter)
    (x : String) (hwf : bf.wf) : (bf.add H x).contains H x = true := by
  unfold BloomFilter.contains
  rw [List.all_eq_true]
  intro i hi
  show getBit ((List.range bf.hash_count).foldl
    (fun a j => setBit a (bf.hashIdx H x j)) bf.bit_array)
    ((bf.add H x).hashIdx H x i) = true
  rw [← List.foldl_map]
  have hrange : ∀ y ∈ (List.range bf.hash_count).map (bf.hashIdx H x),
      y / 8 < bf.bit_array.length := by
    intro y hy
    rcases List.mem_map.mp hy with ⟨s, _, hs⟩
    have : y < bf.bit_size := by
      rw [← hs]; exact Nat.mod_lt _ hwf.1
    rw [hwf.2]
    exact div8_lt this
  have hmem : (bf.add H x).hashIdx H x i ∈
      (List.range bf.hash_count).map (bf.hashIdx H x) := by
    have : (bf.add H x).hashIdx H x i = bf.hashIdx H x i := rfl
    rw [this]
    exact List.mem_map_of_mem _ hi
  exact foldl_setBit_sets _ bf.bit_array hrange _ hmem

theorem contains_add_mono (H : String → Nat → Nat) (bf : BloomFilter)
    (x y : String) (h : bf.contains H x = true) :
    (bf.add H y).contains H x = true := by
  unfold BloomFilter.contains at h ⊢
  rw [List.all_eq_true] at h ⊢
  intro i hi
  show getBit ((List.range bf.hash_count).foldl
    (fun a j => setBit a (bf.hashIdx H y j)) bf.bit_array)
    (bf.hashIdx H x i) = true
  rw [← List.foldl_map]
  exact foldl_setBit_mono _ bf.bit_array _ (h i hi)

theorem contains_foldl_add (H : String → Nat → Nat) (ys : List String) :
    ∀ bf : BloomFilter, bf.contains H x = true →
      (ys.foldl (fun b y => b.add H y) bf).contains H x = true := by
  induction ys with
  | nil => intro bf h; exact h
  | cons z zs ih =>
    intro bf h
    exact ih (bf.add H z) (contains_add_mono H bf x z h)

/-- C5: `BloomFilter` has no false negatives — after `add(x)`, any later
`x in filter` query returns `True`, whatever other items are added in
between (bloom.py `add` lines 87–101, `__contains__` lines 103–122). -/
theorem C5_bloom_no_false_negatives (H : String → Nat → Nat)
    (bf : BloomFilter) (x : String) (ys : List String) (hwf : bf.wf) :
    (ys.foldl (fun b y => b.add H y) (bf.add H x)).contains H x = true :=
  contains_foldl_add H ys (bf.add H x) (contains_add_self H bf x hwf)

/-- A concrete digest-to-integer map used by the witnesses. -/
def witH : String → Nat → Nat := fun s i => s.length * 31 + i * 7

/-- A small concrete filter geometry used by the witnesses
(`bit_size = 16`, two hash functions, `bytearray(2)`). -/
def witBF : BloomFilter := BloomFilter.fresh 4 16 2

theorem C5_bloom_no_false_negatives_witness :
    witBF.wf ∧
      ((["b", "c"].foldl (fun b y => b.add witH y) (witBF.add witH "a")).contains
        witH "a" = true) :=
  ⟨by decide, C5_bloom_no_false_negatives witH witBF "a" ["b", "c"] (by decide)⟩

/-! ### Dedup / merge step (`scraper.py` `_merge_data`, lines 495–561) -/

/-- `collections.deque(maxlen).append(x)`: appends on the right and evicts
from the left when over capacity.  `scraper.py` line 98 creates
`recent_hashes = deque(maxlen=1000)`. -/
def dequeAppend (maxlen : Nat) (d : List String) (x : String) : List String :=
  let d2 := d ++ [x]
  if maxlen < d2.length then d2.drop (d2.length - maxlen) else d2

/-- The engine state touched by the per-item dedup step of `_merge_data`:
the Bloom seen-set, the recent-hash deque, the suspected-false-positive
counter, the aggregated list `target = aggregated_data[key]`, the pending
batch (each element stands for the `{key: [item]}` wrapper appended at
scraper.py lines 530/544), and the `entries_added` counter. -/
structure MergeState where
  seen_hashes : BloomFilter
  recent_hashes : List String
  false_positive_count : Nat
  target : List String
  pending_batch : List String
  entries_added : Nat
deriving Repr, DecidableEq

/-- One iteration of `for item in value` in `_merge_data` (scraper.py lines
516–549), without the batch-size check of lines 547–549 (flushing only moves
already-appended entries from the pending batch to the sink).  `canonHash
item` stands for `hashlib.md5(json.dumps(item, sort_keys=True)).hexdigest()`
(lines 517–519): two records have identical canonical hashes iff `canonHash`
agrees on them; the theorems hold for every such hash function. -/
def mergeStep (H : String → Nat → Nat) (canonHash : String → String)
    (st : MergeState) (item : String) : MergeState :=
  if st.seen_hashes.contains H (canonHash item) = false then
    -- `if item_hash not in self.seen_hashes:` — definitely new (lines 522–530)
    { st with
      target := st.target ++ [item]
      seen_hashes := st.seen_hashes.add H (canonHash item)
      recent_hashes := dequeAppend 1000 st.recent_hashes (canonHash item)
      entries_added := st.entries_added + 1
      pending_batch := st.pending_batch ++ [item] }
  else if canonHash item ∈ st.recent_hashes then
    -- `if item_hash in self.recent_hashes: continue` — confirmed duplicate (534–536)
    st
  else
    -- suspected false positive — preserved, counter incremented (lines 538–544)
    { st with
      false_positive_count := st.false_positive_count + 1
      target := st.target ++ [item]
      recent_hashes := dequeAppend 1000 st.recent_hashes (canonHash item)
      entries_added := st.entries_added + 1
      pending_batch := st.pending_batch ++ [item] }

theorem mergeStep_seen_mono (H : String → Nat → Nat) (canonHash : String → String)
    (st : MergeState) (x : String) (h0 : String)
    (h : st.seen_hashes.contains H h0 = true) :
    (mergeStep H canonHash st x).seen_hashes.contains H h0 = true := by
  unfold mergeStep
  split
  · exact contains_add_mono H st.seen_hashes h0 _ h
  · split
    · exact h
    · exact h

theorem mergeStep_wf (H : String → Nat → Nat) (canonHash : String → String)
    (st : MergeState) (x : String) (hwf : st.seen_hashes.wf) :
    (mergeStep H canonHash st x).seen_hashes.wf := by
  unfold mergeStep
  split
  · exact add_wf H st.seen_hashes _ hwf
  · split
    · exact hwf
    · exact hwf

theorem mergeStep_contains_self (H : String → Nat → Nat)
    (canonHash : String → String) (st : MergeState) (x : String)
    (hwf : st.seen_hashes.wf) :
    (mergeStep H canonHash st x).seen_hashes.contains H (canonHash x) = true := by
  unfold mergeStep
  split
  · exact contains_add_self H st.seen_hashes _ hwf
  · next hc =>
    have : st.seen_hashes.contains H (canonHash x) = true := by
      cases h : st.seen_hashes.contains H (canonHash x)
      · exact absurd h hc
      · rfl
    split
    · exact this
    · exact this

theorem foldl_mergeStep_seen_mono (H : String → Nat → Nat)
    (canonHash : String → String) (mid : List String) :
    ∀ st : MergeState, ∀ h0,
      st.seen_hashes.contains H h0 = true →
      ((mid.foldl (mergeStep H canonHash) st).seen_hashes.contains H h0 = true) := by
  induction mid with
  | nil => intro st h0 h; exact h
  | cons z zs ih =>
    intro st h0 h
    exact ih (mergeStep H canonHash st z) h0
      (mergeStep_seen_mono H canonHash st z h0 h)

/-- C4: dedup in the batcher (`_merge_data`, scraper.py lines 516–549).
With `sts` the state after record `r1` and any interleaved records `mid`
have been merged:
(i) if `r2` has the same canonical hash as `r1` and that hash is still held
in the recent-LRU when `r2` arrives, the `r2` step is a no-op — in
particular at most one of `r1`, `r2` is appended to the pending batch and
hence emitted to the sink;
(ii) a hash found in the Bloom set and in the recent LRU is dropped;
(iii) a hash found in the Bloom set but not in the recent LRU is preserved
and the false-positive counter is incremented. -/
theorem C4_dedup_lru_window (H : String → Nat → Nat)
    (canonHash : String → String) (st st2 st3 : MergeState)
    (r1 r2 x y : String) (mid : List String)
    (hwf : st.seen_hashes.wf)
    (hh : canonHash r1 = canonHash r2)
    (hrecent : canonHash r2 ∈
      (mid.foldl (mergeStep H canonHash) (mergeStep H canonHash st r1)).recent_hashes)
    (hx1 : st2.seen_hashes.contains H (canonHash x) = true)
    (hx2 : canonHash x ∈ st2.recent_hashes)
    (hy1 : st3.seen_hashes.contains H (canonHash y) = true)
    (hy2 : canonHash y ∉ st3.recent_hashes) :
    mergeStep H canonHash
        (mid.foldl (mergeStep H canonHash) (mergeStep H canonHash st r1)) r2 =
      mid.foldl (mergeStep H canonHash) (mergeStep H canonHash st r1) ∧
    mergeStep H canonHash st2 x = st2 ∧
    (mergeStep H canonHash st3 y).pending_batch = st3.pending_batch ++ [y] ∧
    (mergeStep H canonHash st3 y).false_positive_count =
      st3.false_positive_count + 1 := by
  have hdrop : ∀ s : MergeState, ∀ r : String,
      s.seen_hashes.contains H (canonHash r) = true →
      canonHash r ∈ s.recent_hashes →
      mergeStep H canonHash s r = s := by
    intro s r h1 h2
    unfold mergeStep
    rw [h1]
    simp [h2]
  refine ⟨?_, hdrop st2 x hx1 hx2, ?_⟩
  · have hc1 : (mergeStep H canonHash st r1).seen_hashes.contains H
        (canonHash r2) = true := by
      rw [← hh]
      exact mergeStep_contains_self H canonHash st r1 hwf
    have hc : (mid.foldl (mergeStep H canonHash)
        (mergeStep H canonHash st r1)).seen_hashes.contains H (canonHash r2) = true :=
      foldl_mergeStep_seen_mono H canonHash mid _ _ hc1
    exact hdrop _ r2 hc hrecent
  · constructor
    · unfold mergeStep
      rw [hy1]
      simp [hy2]
    · unfold mergeStep
      rw [hy1]
      simp [hy2]

/-- Witness states for the C4 theorem. -/
def witMerge0 : MergeState :=
  { seen_hashes := witBF
    recent_hashes := []
    false_positive_count := 0
    target := []
    pending_batch := []
    entries_added := 0 }

def witMergeFP : MergeState :=
  { witMerge0 with seen_hashes := witBF.add witH "a" }

def witMergeDup : MergeState :=
  { witMergeFP with recent_hashes := ["a"] }

theorem C4_dedup_lru_window_witness :
    witBF.wf ∧
    ("a" : String) = "a" ∧
    (("a" : String) ∈ (([] : List String).foldl (mergeStep witH id)
      (mergeStep witH id witMerge0 "a")).recent_hashes) ∧
    (witMergeDup.seen_hashes.contains witH "a" = true) ∧
    (("a" : String) ∈ witMergeDup.recent_hashes) ∧
    (witMergeFP.seen_hashes.contains witH "a" = true) ∧
    (("a" : String) ∉ witMergeFP.recent_hashes) ∧
    (mergeStep witH id
        (([] : List String).foldl (mergeStep witH id)
          (mergeStep witH id witMerge0 "a")) "a" =
      ([] : List String).foldl (mergeStep witH id)
        (mergeStep witH id witMerge0 "a") ∧
      mergeStep witH id witMergeDup "a" = witMergeDup ∧
      (mergeStep witH id witMergeFP "a").pending_batch =
        witMergeFP.pending_batch ++ ["a"] ∧
      (mergeStep witH id witMergeFP "a").false_positive_count =
        witMergeFP.false_positive_count + 1) :=
  ⟨by decide, rfl, by decide, by decide, by decide, by decide, by decide,
    C4_dedup_lru_window witH id witMerge0 witMergeDup witMergeFP
      "a" "a" "a" "a" [] (by decide) rfl (by decide) (by decide) (by decide)
      (by decide) (by decide)⟩

/-! ### Batch flushing and the exit paths of `run`
(`scraper.py`: `_flush_batch` lines 563–579, `_flush_remaining_batches`
lines 581–590, `run` lines 116–163) -/

/-- The Python exceptions that arise on these paths. -/
inductive PyErr where
  | unboundLocalError
  | cancelledError
deriving Repr, DecidableEq

/-- The sink-relevant engine state: whether an `output_callback` was
supplied, the shared `pending_batch`, and the sequence of sink invocations
(one entry per `await self.output_callback(...)`, holding the flushed
batch). -/
structure BatchState where
  hasOutputCallback : Bool
  pending_batch : List String
  sinkCalls : List (List String)
deriving Repr, DecidableEq

/-- `_flush_batch(batch)` (lines 563–579): returns immediately when there is
no output callback or the batch is empty; otherwise combines the batch into
one payload dict and awaits `output_callback(combined)` — recorded as one
sink call carrying the batch. -/
def flush_batch (st : BatchState) (batch : List String) : BatchState :=
  if st.hasOutputCallback = false ∨ batch = [] then st
  else { st with sinkCalls := st.sinkCalls ++ [batch] }

/-- `_flush_remaining_batches()` (lines 581–590).  Under the lock,
`batch_to_flush` is bound only inside the `if self.pending_batch:` branch;
the unconditional `if batch_to_flush:` after the lock therefore reads an
unassigned local and raises `UnboundLocalError` whenever the pending batch
was empty.  Returns the new state and the raised exception, if any. -/
def flush_remaining_batches (st : BatchState) : BatchState × Option PyErr :=
  if st.pending_batch = [] then
    (st, some PyErr.unboundLocalError)
  else
    let batch := st.pending_batch
    let st1 := { st with pending_batch := [] }
    (if batch = [] then st1 else flush_batch st1 batch, none)

/-- Exit modes of the driver call inside `run`'s `try` block. -/
inductive DriverOutcome where
  | completed
  | cancelled
deriving Repr, DecidableEq

/-- The batch-flushing behaviour of `run` on its exit paths (scraper.py
lines 133–163): `except asyncio.CancelledError` calls
`_flush_remaining_batches()` and then `raise`s; there is **no** flush call
on the normal-completion path — the `finally` block only closes resources,
after which `run` returns `aggregated_data`.  Returns the final batch state
and the exception `run` terminates with, if any. -/
def run_exit (outcome : DriverOutcome) (st : BatchState) :
    BatchState × Option PyErr :=
  match outcome with
  | .completed => (st, none)
  | .cancelled =>
    match flush_remaining_batches st with
    | (st1, none) => (st1, some PyErr.cancelledError)
    | (st1, some e) => (st1, some e)

/-- C1 counterexample: with a nonempty pending batch and an output callback
installed, normal completion of the driver performs **zero** sink calls and
leaves the batch pending — `run` does not flush the remainder on the
normal-completion exit path, contrary to the claim that every exit path
flushes it exactly once. -/
theorem C1_counterexample_no_flush_on_normal_completion :
    (run_exit DriverOutcome.completed
        { hasOutputCallback := true, pending_batch := ["item0"], sinkCalls := [] }).1.sinkCalls = [] ∧
    (run_exit DriverOutcome.completed
        { hasOutputCallback := true, pending_batch := ["item0"], sinkCalls := [] }).1.pending_batch = ["item0"] ∧
    (run_exit DriverOutcome.completed
        { hasOutputCallback := true, pending_batch := ["item0"], sinkCalls := [] }).2 = none := by
  decide

/-- C1 (amended): the remainder of the pending batch is flushed to the sink
exactly once only on the cancellation path, and only when it is nonempty —
the cancellation is then re-raised; on normal completion of the driver no
flush occurs at all. -/
theorem C1_flush_only_on_cancellation (st : BatchState)
    (h1 : st.pending_batch ≠ []) (h2 : st.hasOutputCallback = true)
    (h3 : st.sinkCalls = []) :
    (run_exit DriverOutcome.cancelled st).1.sinkCalls = [st.pending_batch] ∧
    (run_exit DriverOutcome.cancelled st).1.pending_batch = [] ∧
    (run_exit DriverOutcome.cancelled st).2 = some PyErr.cancelledError ∧
    (run_exit DriverOutcome.completed st).1.sinkCalls = [] ∧
    (run_exit DriverOutcome.completed st).2 = none := by
  unfold run_exit flush_remaining_batches flush_batch
  simp [h1, h2, h3]

theorem C1_flush_only_on_cancellation_witness :
    (let st : BatchState :=
      { hasOutputCallback := true, pending_batch := ["item0"], sinkCalls := [] }
     st.pending_batch ≠ [] ∧ st.hasOutputCallback = true ∧ st.sinkCalls = [] ∧
      ((run_exit DriverOutcome.cancelled st).1.sinkCalls = [st.pending_batch] ∧
       (run_exit DriverOutcome.cancelled st).1.pending_batch = [] ∧
       (run_exit DriverOutcome.cancelled st).2 = some PyErr.cancelledError ∧
       (run_exit DriverOutcome.completed st).1.sinkCalls = [] ∧
       (run_exit DriverOutcome.completed st).2 = none)) :=
  ⟨by decide, rfl, rfl,
    C1_flush_only_on_cancellation
      { hasOutputCallback := true, pending_batch := ["item0"], sinkCalls := [] }
      (by decide) rfl rfl⟩

/-- C10: whenever `_flush_remaining_batches` runs with an empty pending
batch, the local `batch_to_flush` is read without ever being assigned and
the call raises `UnboundLocalError` instead of returning normally; the sink
is not invoked and the state is unchanged. -/
theorem C10_unbound_local_on_empty_batch (st : BatchState)
    (h : st.pending_batch = []) :
    flush_remaining_batches st = (st, some PyErr.unboundLocalError) := by
  unfold flush_remaining_batches
  simp [h]

theorem C10_unbound_local_on_empty_batch_witness :
    (let st : BatchState :=
      { hasOutputCallback := true, pending_batch := [], sinkCalls := [] }
     st.pending_batch = [] ∧
      flush_remaining_batches st = (st, some PyErr.unboundLocalError)) :=
  ⟨rfl, C10_unbound_local_on_empty_batch
    { hasOutputCallback := true, pending_batch := [], sinkCalls := [] } rfl⟩

/-! ### Checkpoint store (`engine/checkpoint.py`) and its call sites in
`scraper.py` -/

/-- `CheckpointManager` state (checkpoint.py lines 13–18): the `enabled`
flag, the `_initialized` flag set by `initialize()`, the in-memory done-set
`_cache`, and the rows of the `checkpoints` table for this job, modelled as
an association list url ↦ status (the call sites pass `url` for `url_hash`,
so the primary key degenerates to the url). -/
structure CheckpointManager where
  enabled : Bool
  initialized : Bool
  cache : List String
  db : List (String × String)
deriving Repr, DecidableEq

/-- `INSERT OR REPLACE` keyed on the url (checkpoint.py line 67). -/
def dbUpsert (db : List (String × String)) (url status : String) :
    List (String × String) :=
  if db.any (fun r => r.1 == url) then
    db.map (fun r => if r.1 == url then (url, status) else r)
  else db ++ [(url, status)]

/-- `UPDATE checkpoints SET status = 'done' ... WHERE url = ?`
(checkpoint.py line 81): updates existing rows only. -/
def dbUpdateStatus (db : List (String × String)) (url status : String) :
    List (String × String) :=
  db.map (fun r => if r.1 == url then (r.1, status) else r)

/-- `is_done(url)` (checkpoint.py lines 55–58): memory lookup only. -/
def CheckpointManager.is_done (cp : CheckpointManager) (url : String) : Bool :=
  if cp.enabled = false then false else decide (url ∈ cp.cache)

/-- `mark_in_progress(url)` as a coroutine that actually runs (checkpoint.py
lines 60–72). -/
def CheckpointManager.mark_in_progress (cp : CheckpointManager)
    (url : String) : CheckpointManager :=
  if cp.enabled = false ∨ cp.initialized = false then cp
  else { cp with db := dbUpsert cp.db url "in_progress" }

/-- `mark_done(url)` as a coroutine that actually runs (checkpoint.py lines
74–87): update the row to `done`, then `self._cache.add(url)`. -/
def CheckpointManager.mark_done (cp : CheckpointManager)
    (url : String) : CheckpointManager :=
  if cp.enabled = false ∨ cp.initialized = false then cp
  else { cp with
    db := dbUpdateStatus cp.db url "done"
    cache := if url ∈ cp.cache then cp.cache else cp.cache ++ [url] }

/-- A process restart with the same job name and checkpointing enabled:
`CheckpointManager.__init__` followed by `initialize()` (checkpoint.py
lines 20–53), which loads into `_cache` the urls of the rows whose status is
`'done'`. -/
def CheckpointManager.restart (db : List (String × String)) : CheckpointManager :=
  { enabled := true
    initialized := true
    cache := (db.filter (fun r => r.2 == "done")).map (fun r => r.1)
    db := db }

/-- The checkpoint effect of the success path of `_worker` in
`_run_list_mode` (scraper.py lines 288–300): both
`self.checkpoint.mark_in_progress(url)` (line 291) and
`self.checkpoint.mark_done(url)` (line 298) are coroutine calls **without**
`await` — the coroutine object is created and discarded, its body never
runs, so the checkpoint state is left unchanged by a successfully processed
URL.  (`initialize()` is likewise never awaited anywhere, and the
pagination-mode call sites at scraper.py lines 219 and 229 have the same
shape.) -/
def worker_checkpoint_after_success (cp : CheckpointManager)
    (_url : String) : CheckpointManager :=
  cp

theorem dbUpsert_any (db : List (String × String)) (u s : String) :
    (dbUpsert db u s).any (fun r => r.1 == u) = true := by
  unfold dbUpsert
  split
  · next h =>
    rw [List.any_map]
    rw [List.any_eq_true] at h ⊢
    rcases h with ⟨r, hr, hru⟩
    refine ⟨r, hr, ?_⟩
    have h2 : r.1 = u := by simpa using hru
    simp [Function.comp, h2]
  · simp [List.any_append]

theorem mem_dbUpdateStatus (db : List (String × String)) (u status : String)
    (h : db.any (fun r => r.1 == u) = true) :
    (u, status) ∈ dbUpdateStatus db u status := by
  unfold dbUpdateStatus
  rw [List.any_eq_true] at h
  rcases h with ⟨r, hr, hru⟩
  have h2 : r.1 = u := by simpa using hru
  have : (if r.1 == u then (r.1, status) else r) = (u, status) := by
    simp [h2]
  rw [← this]
  exact List.mem_map_of_mem _ hr

/-- C2, settled against the code: for a successfully processed URL `u` with
checkpointing enabled and initialized, the worker's un-awaited
`mark_done(u)` leaves `is_done(u) = false` — the claim fails on the code.
Had the coroutines been awaited, `checkpoint.py`'s own semantics would
satisfy the claim: `is_done(u) = true` immediately and after a restart that
reloads the store from the persisted rows. -/
theorem C2_mark_done_never_awaited (cp : CheckpointManager) (u : String)
    (h1 : cp.enabled = true) (h2 : cp.initialized = true)
    (h3 : u ∉ cp.cache) :
    (worker_checkpoint_after_success cp u).is_done u = false ∧
    ((cp.mark_in_progress u).mark_done u).is_done u = true ∧
    (CheckpointManager.restart ((cp.mark_in_progress u).mark_done u).db).is_done
      u = true := by
  refine ⟨?_, ?_, ?_⟩
  · show cp.is_done u = false
    unfold CheckpointManager.is_done
    simp [h1, h3]
  · unfold CheckpointManager.mark_in_progress CheckpointManager.mark_done
      CheckpointManager.is_done
    simp [h1, h2, h3]
  · unfold CheckpointManager.mark_in_progress
    simp [h1, h2]
    unfold CheckpointManager.mark_done
    simp [h1, h2]
    unfold CheckpointManager.restart CheckpointManager.is_done
    simp only [Bool.false_eq_true, if_false, decide_eq_true_eq]
    have hmem : (u, "done") ∈
        dbUpdateStatus (dbUpsert cp.db u "in_progress") u "done" :=
      mem_dbUpdateStatus _ u "done" (dbUpsert_any cp.db u "in_progress")
    have : u ∈ ((dbUpdateStatus (dbUpsert cp.db u "in_progress") u
        "done").filter (fun r => r.2 == "done")).map (fun r => r.1) := by
      refine List.mem_map.mpr ⟨(u, "done"), ?_, rfl⟩
      exact List.mem_filter.mpr ⟨hmem, by simp⟩
    simp [this]

theorem C2_mark_done_never_awaited_witness :
    (let cp : CheckpointManager :=
      { enabled := true, initialized := true, cache := [], db := [] }
     cp.enabled = true ∧ cp.initialized = true ∧
      ("http://h/a" : String) ∉ cp.cache ∧
      ((worker_checkpoint_after_success cp "http://h/a").is_done "http://h/a" = false ∧
       ((cp.mark_in_progress "http://h/a").mark_done "http://h/a").is_done
         "http://h/a" = true ∧
       (CheckpointManager.restart
           ((cp.mark_in_progress "http://h/a").mark_done "http://h/a").db).is_done
         "http://h/a" = true)) :=
  ⟨rfl, rfl, by decide,
    C2_mark_done_never_awaited
      { enabled := true, initialized := true, cache := [], db := [] }
      "http://h/a" rfl rfl (by decide)⟩

/-! ### Direct-HTTP fetch attempt (`scraper.py` `_fetch_page`, lines
436–487) and the tenacity retry decorators -/

/-- Exceptions a fetch attempt can raise. -/
inductive FetchErr where
  | statusError (code : Nat)     -- `raise Exception(f"Status: {code}")`, line 481
  | networkError (msg : String)  -- exception from `session.get`, re-raised at 485–487
deriving Repr, DecidableEq

structure HttpResponse where
  status_code : Nat
  text : String
deriving Repr, DecidableEq

/-- One attempt of the direct-HTTP branch of `_fetch_page` (scraper.py lines
467–487, `use_playwright = False`).  `resp` is the outcome of
`session.get` (`Except.error` = any network/timeout exception, which is
caught, logged and re-raised).  When `self.session` is `None`, the function
returns `""` immediately (line 468) — it raises nothing. -/
def fetch_attempt_http (hasSession : Bool)
    (resp : Except String HttpResponse) : Except FetchErr String :=
  if hasSession = false then .ok ""
  else
    match resp with
    | .error e => .error (FetchErr.networkError e)
    | .ok r =>
      if r.status_code = 200 then .ok r.text
      else if r.status_code ∈ [403, 429, 500, 502, 503, 504] then
        .error (FetchErr.statusError r.status_code)
      else .ok ""   -- `Hard Failure` log, soft failure: empty string

/-- One run of a tenacity-`@retry`-decorated call.  `f n` is the outcome of
attempt `n` (1-based).  After a failed attempt `n`,
`stop_after_attempt(maxA)` stops iff `maxA ≤ n`; otherwise tenacity sleeps
`w n` seconds and retries.  Returns (result, attempts made, sleeps
performed).  With `reraise=True` the last exception is re-raised; without
it, tenacity raises `RetryError` wrapping the last exception — both are
`Exception` subclasses and every caller in the engine catches bare
`Exception`, so the error value is the last exception either way. -/
def tenacityRetry {ε α : Type} (maxA : Nat) (w : Nat → Nat)
    (f : Nat → Except ε α) : Except ε α × Nat × List Nat :=
  go maxA 1
where
  go : Nat → Nat → Except ε α × Nat × List Nat
    | 0, n => (f n, n, [])   -- unreachable for maxA ≥ 1
    | fuel + 1, n =>
      match f n with
      | .ok a => (.ok a, n, [])
      | .error e =>
        if maxA ≤ n then (.error e, n, [])
        else
          let r := go fuel (n + 1)
          (r.1, r.2.1, w n :: r.2.2)

/-- `wait_exponential(multiplier=1, min=2, max=10)` (the decorator of
`_fetch_page`, scraper.py line 436): after attempt `n` tenacity computes
`multiplier * 2 ** (n - 1)` and clamps it into `[min, max]`. -/
def wait_exp_1_2_10 (n : Nat) : Nat :=
  Nat.max 2 (Nat.min (2 ^ (n - 1)) 10)

/-- `wait_fixed(1)` (the decorator of `_execute_interaction`,
scraper.py line 402). -/
def wait_fixed_1 (_n : Nat) : Nat := 1

/-- `_fetch_page` attempts for a URL whose server always answers HTTP 503:
every attempt raises `Exception("Status: 503")` (scraper.py line 481). -/
def fetch_always_503 : Nat → Except FetchErr String :=
  fun _ => fetch_attempt_http true (.ok ⟨503, "Service Unavailable"⟩)

/-- The observable driver effects of `_worker`'s result handling. -/
structure WorkerObs where
  failed_urls : List String
  stats_events : List String
deriving Repr, DecidableEq

/-- `_worker` after `html = await self._fetch_page(url)` (scraper.py lines
295–309): a nonempty body gives `mark_done` (un-awaited) and one
`page_success` stat; an empty body raises `Exception("Empty HTML
returned")`, which the same `except` clause catches; any exception appends
the url to `failed_urls` and emits one `page_error` stat. -/
def worker_after_fetch (obs : WorkerObs) (url : String)
    (r : Except FetchErr String) : WorkerObs :=
  match r with
  | .ok html =>
    if html = "" then
      { obs with failed_urls := obs.failed_urls ++ [url]
                 stats_events := obs.stats_events ++ ["page_error"] }
    else { obs with stats_events := obs.stats_events ++ ["page_success"] }
  | .error _ =>
    { obs with failed_urls := obs.failed_urls ++ [url]
               stats_events := obs.stats_events ++ ["page_error"] }

/-- C6 counterexample: with the session unset (the empty-session
misconfiguration), one direct-HTTP fetch attempt returns the empty string
normally — for any server response, even a retryable 503 — rather than
raising a `Fatal` error (scraper.py line 468: `if not self.session: return
""`; no `Fatal` exception class exists in the code). -/
theorem C6_counterexample_no_fatal_on_empty_session :
    fetch_attempt_http false (.ok ⟨503, "x"⟩) = Except.ok "" ∧
    fetch_attempt_http false (.error "ConnectTimeout") = Except.ok "" := by
  constructor <;> rfl

/-- C6 (amended): one direct-HTTP fetch attempt returns the body on HTTP
200, raises a retryable error on status in {403, 429, 500, 502, 503, 504}
or on any network/timeout error, returns the empty string on any other
status (soft failure), and on empty-session misconfiguration returns the
empty string immediately instead of raising. -/
theorem C6_http_attempt_semantics (r200 rRetry rOther : HttpResponse)
    (e : String)
    (h200 : r200.status_code = 200)
    (hRetry : rRetry.status_code ∈ [403, 429, 500, 502, 503, 504])
    (hOther1 : rOther.status_code ≠ 200)
    (hOther2 : rOther.status_code ∉ [403, 429, 500, 502, 503, 504]) :
    fetch_attempt_http true (.ok r200) = .ok r200.text ∧
    fetch_attempt_http true (.ok rRetry) =
      .error (FetchErr.statusError rRetry.status_code) ∧
    fetch_attempt_http true (.error e) = .error (FetchErr.networkError e) ∧
    fetch_attempt_http true (.ok rOther) = .ok "" ∧
    fetch_attempt_http false (.ok rRetry) = .ok "" ∧
    fetch_attempt_http false (.error e) = .ok "" := by
  have hR : rRetry.status_code ≠ 200 := by
    intro h
    rw [h] at hRetry
    simp at hRetry
  refine ⟨?_, ?_, rfl, ?_, rfl, rfl⟩
  · unfold fetch_attempt_http
    simp [h200]
  · unfold fetch_attempt_http
    simp [hR, hRetry]
  · unfold fetch_attempt_http
    simp [hOther1, hOther2]

theorem C6_http_attempt_semantics_witness :
    ((200 : Nat) = 200) ∧ ((503 : Nat) ∈ [403, 429, 500, 502, 503, 504]) ∧
    ((404 : Nat) ≠ 200) ∧ ((404 : Nat) ∉ [403, 429, 500, 502, 503, 504]) ∧
    (fetch_attempt_http true (.ok ⟨200, "body"⟩) = .ok "body" ∧
     fetch_attempt_http true (.ok ⟨503, "y"⟩) =
       .error (FetchErr.statusError 503) ∧
     fetch_attempt_http true (.error "ReadTimeout") =
       .error (FetchErr.networkError "ReadTimeout") ∧
     fetch_attempt_http true (.ok ⟨404, "z"⟩) = .ok "" ∧
     fetch_attempt_http false (.ok ⟨503, "y"⟩) = .ok "" ∧
     fetch_attempt_http false (.error "ReadTimeout") = .ok "") :=
  ⟨rfl, by decide, by decide, by decide,
    C6_http_attempt_semantics ⟨200, "body"⟩ ⟨503, "y"⟩ ⟨404, "z"⟩
      "ReadTimeout" rfl (by decide) (by decide) (by decide)⟩

/-- C7: a URL whose fetch always fails retryably (every response HTTP 503)
is attempted exactly 3 times (`stop_after_attempt(3)`), with the two
backoff sleeps produced by `wait_exponential(multiplier=1, min=2, max=10)`
— each within [2, 10] seconds; the final failure propagates to the worker,
which appends the URL to `failed_urls` and emits exactly one `page_error`
stat event (scraper.py lines 436, 305–309). -/
theorem C7_retry_three_attempts_then_fail (obs : WorkerObs) (u : String) :
    (tenacityRetry 3 wait_exp_1_2_10 fetch_always_503).2.1 = 3 ∧
    (tenacityRetry 3 wait_exp_1_2_10 fetch_always_503).2.2 = [2, 2] ∧
    ((tenacityRetry 3 wait_exp_1_2_10 fetch_always_503).2.2).all
      (fun w => decide (2 ≤ w) && decide (w ≤ 10)) = true ∧
    (tenacityRetry 3 wait_exp_1_2_10 fetch_always_503).1 =
      .error (FetchErr.statusError 503) ∧
    worker_after_fetch obs u (tenacityRetry 3 wait_exp_1_2_10 fetch_always_503).1 =
      { obs with failed_urls := obs.failed_urls ++ [u]
                 stats_events := obs.stats_events ++ ["page_error"] } := by
  exact ⟨rfl, rfl, rfl, rfl, rfl⟩

/-! ### Browser interactions (`scraper.py` `_handle_interactions` lines
374–400 and `_execute_interaction` lines 402–434; `browser.py` lines
111–132 have the same structure) -/

/-- `_handle_interactions` driving `_execute_interaction`: each interaction
runs under `@retry(stop=stop_after_attempt(2), wait=wait_fixed(1),
reraise=True)`; when the attempts are exhausted the re-raised exception is
caught by the `except` inside the `for` loop, the failure is logged, and
the loop `continue`s with the next interaction, so the surrounding fetch
never sees the exception.  `act a n` is the outcome of attempt `n` of
interaction `a`.  Returns (successful, failed, per-interaction attempt
counts); the Python loop accumulates the same counters in order. -/
def handle_interactions {α : Type} (act : α → Nat → Except String Unit) :
    List α → Nat × Nat × List Nat
  | [] => (0, 0, [])
  | a :: rest =>
    let r := tenacityRetry 2 wait_fixed_1 (act a)
    let acc := handle_interactions act rest
    match r.1 with
    | .ok _ => (acc.1 + 1, acc.2.1, r.2.1 :: acc.2.2)
    | .error _ => (acc.1, acc.2.1 + 1, r.2.1 :: acc.2.2)

theorem tenacity2_attempts_le {α : Type} (f : Nat → Except String α) :
    (tenacityRetry 2 wait_fixed_1 f).2.1 ≤ 2 := by
  unfold tenacityRetry
  unfold tenacityRetry.go
  cases h1 : f 1 with
  | ok a => simp
  | error e =>
    simp only [h1]
    norm_num
    unfold tenacityRetry.go
    cases h2 : f 2 with
    | ok a => simp
    | error e2 => simp

theorem handle_interactions_counts {α : Type}
    (act : α → Nat → Except String Unit) (actions : List α) :
    (handle_interactions act actions).1 +
        (handle_interactions act actions).2.1 = actions.length ∧
    ((handle_interactions act actions).2.2).all
        (fun c => decide (c ≤ 2)) = true := by
  induction actions with
  | nil => exact ⟨rfl, rfl⟩
  | cons a rest ih =>
    unfold handle_interactions
    cases hr : (tenacityRetry 2 wait_fixed_1 (act a)).1 with
    | ok v =>
      refine ⟨by simpa [hr] using by omega, ?_⟩
      simp only [hr, List.all_cons]
      rw [ih.2]
      simp [tenacity2_attempts_le (act a)]
    | error e =>
      refine ⟨by simp [hr]; omega, ?_⟩
      simp only [hr, List.all_cons]
      rw [ih.2]
      simp [tenacity2_attempts_le (act a)]

/-- C8 counterexample: a single always-failing interaction is executed
exactly 2 times in total — `stop_after_attempt(2)` means one retry, not the
claimed two retries (which would be three executions) — before being
counted as failed and skipped. -/
theorem C8_counterexample_single_retry :
    handle_interactions
        (fun (_ : Unit) (_ : Nat) => (.error "TimeoutError" : Except String Unit))
        [()] = (0, 1, [2]) := rfl

/-- C8 (amended): every browser interaction step is attempted at most twice
(one retry) with a fixed 1-second wait between attempts; an interaction
that keeps failing is executed exactly twice with one 1-second sleep; every
interaction in the script is processed — failures are logged and skipped,
the remaining interactions still run, and the page fetch is never aborted
by an interaction failure. -/
theorem C8_interaction_retry_and_skip {α : Type}
    (act : α → Nat → Except String Unit) (actions : List α) :
    (handle_interactions act actions).1 +
        (handle_interactions act actions).2.1 = actions.length ∧
    ((handle_interactions act actions).2.2).all
        (fun c => decide (c ≤ 2)) = true ∧
    (tenacityRetry 2 wait_fixed_1
        (fun _ => (.error "TimeoutError" : Except String Unit))).2.1 = 2 ∧
    (tenacityRetry 2 wait_fixed_1
        (fun _ => (.error "TimeoutError" : Except String Unit))).2.2 = [1] :=
  ⟨(handle_interactions_counts act actions).1,
    (handle_interactions_counts act actions).2, rfl, rfl⟩

/-! ### The two crawl drivers as event traces -/

/-- Observable events of one driver step, in program order. -/
inductive Ev where
  | acquireSem                   -- `async with sem`
  | acquireToken                 -- `async with self.rate_limiter`
  | markInProgress (url : String)
  | fetchCall (url : String)     -- the call to `self._fetch_page(url)`
  | markDone (url : String)
  | statsEvent (kind : String)
  | sleepJitter
deriving Repr, DecidableEq

/-- One iteration of the `while` loop of `_run_pagination_mode`
(scraper.py lines 209–252): robots check (blocked ⇒ `blocked` stat, break),
`mark_in_progress`, `self._fetch_page(current_url)`, then on success
`mark_done` and `page_success`, on failure `page_error`.  **No
rate-limiter acquisition appears anywhere in this function** — the only
`async with self.rate_limiter` in the engine is in `_run_list_mode`'s
worker.  (The next-link resolution and inter-page sleep that follow a
success are irrelevant here and omitted.) -/
def pagination_iteration_trace (allowed fetchOk : Bool) (url : String) :
    List Ev :=
  if allowed = false then [.statsEvent "blocked"]
  else
    [.markInProgress url, .fetchCall url] ++
      (if fetchOk then [.markDone url, .statsEvent "page_success"]
       else [.statsEvent "page_error"])

/-- One `_worker(url)` run of `_run_list_mode` (scraper.py lines 278–312):
shutdown check, robots check, then `async with sem` and `async with
self.rate_limiter` — one limiter token — and only then `mark_in_progress`
and the `self._fetch_page(url)` call, followed by the result handling and
the jitter sleep. -/
def list_worker_trace (shutdown allowed fetchOk : Bool) (url : String) :
    List Ev :=
  if shutdown then []
  else if allowed = false then [.statsEvent "blocked"]
  else
    [.acquireSem, .acquireToken, .markInProgress url, .fetchCall url] ++
      (if fetchOk then [.markDone url, .statsEvent "page_success"]
       else [.statsEvent "page_error"]) ++ [.sleepJitter]

/-- C3 counterexample: in pagination mode a page fetch is issued (for an
allowed URL) while the whole iteration contains no rate-limiter
acquisition — outbound pagination fetches never take a token, contrary to
the claim that every outbound fetch in both modes does. -/
theorem C3_counterexample_pagination_no_token :
    Ev.fetchCall "http://h/p1" ∈
      pagination_iteration_trace true true "http://h/p1" ∧
    Ev.acquireToken ∉ pagination_iteration_trace true true "http://h/p1" := by
  decide

/-- C3 (amended): in list mode every worker acquires one token from the
global rate limiter before issuing its fetch (the trace on the fetch path
starts with the semaphore and limiter acquisitions, in that order, before
`mark_in_progress` and the fetch call); in pagination mode no limiter token
is ever acquired, whatever the robots/fetch outcome. -/
theorem C3_token_acquired_only_in_list_mode (f a2 f2 : Bool) (u u2 : String) :
    (∃ tail, list_worker_trace false true f u =
      [Ev.acquireSem, Ev.acquireToken, Ev.markInProgress u, Ev.fetchCall u] ++
        tail) ∧
    Ev.fetchCall u2 ∈ pagination_iteration_trace true f2 u2 ∧
    Ev.acquireToken ∉ pagination_iteration_trace a2 f2 u2 := by
  refine ⟨?_, ?_, ?_⟩
  · cases f <;> exact ⟨_, rfl⟩
  · cases f2 <;> simp [pagination_iteration_trace]
  · cases a2 <;> cases f2 <;> simp [pagination_iteration_trace]

theorem C3_token_acquired_only_in_list_mode_witness :
    (∃ tail, list_worker_trace false true true "http://h/a" =
      [Ev.acquireSem, Ev.acquireToken, Ev.markInProgress "http://h/a",
        Ev.fetchCall "http://h/a"] ++ tail) ∧
    Ev.fetchCall "http://h/p2" ∈
      pagination_iteration_trace true true "http://h/p2" ∧
    Ev.acquireToken ∉ pagination_iteration_trace true true "http://h/p2" :=
  C3_token_acquired_only_in_list_mode true true true "http://h/a" "http://h/p2"

/-- Concrete worker observation state used by the C7 witness. -/
def witObs : WorkerObs := { failed_urls := [], stats_events := [] }

theorem C7_retry_three_attempts_then_fail_witness :
    (tenacityRetry 3 wait_exp_1_2_10 fetch_always_503).2.1 = 3 ∧
    (tenacityRetry 3 wait_exp_1_2_10 fetch_always_503).2.2 = [2, 2] ∧
    ((tenacityRetry 3 wait_exp_1_2_10 fetch_always_503).2.2).all
      (fun w => decide (2 ≤ w) && decide (w ≤ 10)) = true ∧
    (tenacityRetry 3 wait_exp_1_2_10 fetch_always_503).1 =
      .error (FetchErr.statusError 503) ∧
    worker_after_fetch witObs "http://h/u503"
        (tenacityRetry 3 wait_exp_1_2_10 fetch_always_503).1 =
      { witObs with failed_urls := witObs.failed_urls ++ ["http://h/u503"]
                    stats_events := witObs.stats_events ++ ["page_error"] } :=
  C7_retry_three_attempts_then_fail witObs "http://h/u503"

/-- Concrete interaction script used by the C8 witness: the first attempt
of each interaction fails, the second succeeds. -/
def witAct : Unit → Nat → Except String Unit :=
  fun _ n => if n = 1 then .error "TimeoutError" else .ok ()

def witActions : List Unit := [(), ()]

theorem C8_interaction_retry_and_skip_witness :
    (handle_interactions witAct witActions).1 +
        (handle_interactions witAct witActions).2.1 = witActions.length ∧
    ((handle_interactions witAct witActions).2.2).all
        (fun c => decide (c ≤ 2)) = true ∧
    (tenacityRetry 2 wait_fixed_1
        (fun _ => (.error "TimeoutError" : Except String Unit))).2.1 = 2 ∧
    (tenacityRetry 2 wait_fixed_1
        (fun _ => (.error "TimeoutError" : Except String Unit))).2.2 = [1] :=
  C8_interaction_retry_and_skip witAct witActions

/-! ### C9: seen-set persistence -/

theorem getD_replicate_zero : ∀ n i : Nat,
    (List.replicate n (0 : Nat)).getD i 0 = 0
  | 0, _ => rfl
  | _ + 1, 0 => rfl
  | n + 1, i + 1 => getD_replicate_zero n i

theorem getBit_replicate_zero (n j : Nat) :
    getBit (List.replicate n 0) j = false := by
  unfold getBit
  rw [getD_replicate_zero]
  simp

/-- C9 counterexample: `BloomFilter` (bloom.py) defines no `save` or `load`
operation, and `ScraperEngine.__init__` (scraper.py line 95) constructs a
fresh `BloomFilter(capacity=100000, error_rate=0.001)` on every run — so a
process restart replaces the seen-set with an empty filter.  Concretely:
before the restart `contains("a") = true` after adding `"a"`; the filter a
restarted engine holds answers `contains("a") = false`, disagreeing with
the pre-restart state for a previously added item. -/
theorem C9_counterexample_restart_loses_state :
    (witBF.add witH "a").contains witH "a" = true ∧
    (BloomFilter.fresh 4 16 2).contains witH "a" = false := by
  decide

/-- C9 (amended): the seen-set offers only `add` and `contains`; no
`save`/`load` exists in the code and the engine never persists the filter,
so after a process restart the fresh filter of `__init__` answers
`contains(x) = false` for every item (for any geometry with at least one
hash function). -/
theorem C9_no_seen_set_persistence (cap m k : Nat) (H : String → Nat → Nat)
    (x : String) (hk : 0 < k) :
    (BloomFilter.fresh cap m k).contains H x = false := by
  unfold BloomFilter.contains
  apply Bool.eq_false_iff.mpr
  intro hall
  rw [List.all_eq_true] at hall
  have h0 := hall 0 (List.mem_range.mpr hk)
  have hfresh : (BloomFilter.fresh cap m k).bit_array =
      List.replicate ((m + 7) / 8) 0 := rfl
  rw [hfresh, getBit_replicate_zero] at h0
  exact absurd h0 (by simp)

theorem C9_no_seen_set_persistence_witness :
    0 < 2 ∧ (BloomFilter.fresh 4 16 2).contains witH "b" = false :=
  ⟨by decide, C9_no_seen_set_persistence 4 16 2 witH "b" (by decide)⟩

end Glider
